import Mathlib

/-!
Shallow embedding of `py3status/modules/clock.py` (class `Py3status`).

Times are modelled as natural-number epoch seconds; the module's state
(attributes mutated by `post_config_hook`, `on_click` and `clock`) is an
explicit `ClockState` record threaded through each operation.  External
collaborators (pytz/tzlocal database, `datetime.now`, `strftime`,
`py3.safe_format`) are passed in as record-of-functions parameters so that
theorems quantify over every possible collaborator behaviour.
-/

namespace Clock

/-- `startsWithL pat s`: `pat` is an initial segment of `s`. -/
def startsWithL : List Char → List Char → Bool
  | [], _ => true
  | _ :: _, [] => false
  | p :: ps, c :: cs => p == c && startsWithL ps cs

/-- Python's `pat in s` substring test. -/
def hasSubstr : List Char → List Char → Bool
  | pat, [] => startsWithL pat []
  | pat, c :: cs => startsWithL pat (c :: cs) || hasSubstr pat cs

/-- Scanner for `re.sub('\x7b([^\x7d]*)\x7d', '', s)`.  `inTok = true` means the
scanner is inside a `\x7b...\x7d` span (entered only when a `}` lies ahead, since
the pattern needs a closing `}`), dropping characters up to and including the
first `}`; `inTok = false` copies characters, starting a span at a `{` that
has a later `}`.  A `{` with no later `}` matches nothing and is kept. -/
def stripGo : Bool → List Char → List Char
  | _, [] => []
  | true, c :: cs => if c = '}' then stripGo false cs else stripGo true cs
  | false, c :: cs =>
    if c = '{' ∧ '}' ∈ cs then stripGo true cs else c :: stripGo false cs

/-- Embeds `re.sub('\x7b([^\x7d]*)\x7d', '', s)`: delete every non-overlapping
left-to-right match of a `{`, characters other than `}`, then the first `}`. -/
def stripTokens (l : List Char) : List Char := stripGo false l

/-- Scanner for `re.findall('\x7b([^\x7d]*)\x7d', s)`: like `stripGo`, with
`acc` holding the reversed characters of the group captured so far. -/
def findGo : Option (List Char) → List Char → List String
  | _, [] => []
  | some acc, c :: cs =>
    if c = '}' then String.mk acc.reverse :: findGo none cs
    else findGo (some (c :: acc)) cs
  | none, c :: cs =>
    if c = '{' ∧ '}' ∈ cs then findGo (some []) cs else findGo none cs

/-- Embeds `re.findall('\x7b([^\x7d]*)\x7d', s)`: the captured groups of the
non-overlapping left-to-right matches. -/
def findTokens (l : List Char) : List String := findGo none l

/-- Embeds `s.replace('%%', '')`: left-to-right, non-overlapping. -/
def stripPercentPercent : List Char → List Char
  | '%' :: '%' :: cs => stripPercentPercent cs
  | c :: cs => c :: stripPercentPercent cs
  | [] => []

/-- Embeds the per-format granularity computation in `post_config_hook`
(lines 128-145): strip `{token}` spans, strip `%%`, then classify.
The source stores the result in `self.time_deltas`. -/
def time_delta (format : String) : Nat :=
  let ft := stripPercentPercent (stripTokens format.data)
  if hasSubstr ['%', 'f'] ft then 0
  else if hasSubstr ['%', 'S'] ft then 1
  else if hasSubstr ['%', 'c'] ft then 1
  else if hasSubstr ['%', 'X'] ft then 1
  else 60

/-- Written from the spec's words (§4.2 FormatAnalyzer), for the refinement
claim: "strip all `{token}` placeholder spans and all escaped-literal-percent
sequences from the format string, then classify by presence of directives,
evaluated in this precedence order (first match wins): fractional-seconds
directive → 0; seconds directive → 1; locale full datetime directive → 1;
locale time-only directive → 1; otherwise → 60". -/
def specGranularity (format : String) : Nat :=
  let stripped := stripPercentPercent (stripTokens format.data)
  if hasSubstr ['%', 'f'] stripped then 0
  else if hasSubstr ['%', 'S'] stripped then 1
  else if hasSubstr ['%', 'c'] stripped then 1
  else if hasSubstr ['%', 'X'] stripped then 1
  else 60

/-- A pytz timezone object; `zone` is its canonical IANA name attribute. -/
structure TZHandle where
  zone : String
deriving DecidableEq

/-- What `_get_timezone` stores into `self._items`: either a pytz zone object
or the string `'?'` marker. -/
inductive ResolvedTZ where
  | zone : TZHandle → ResolvedTZ
  | unresolved : ResolvedTZ
deriving DecidableEq

/-- The external timezone database (pytz + tzlocal).  `none` models the
raised exception (`pytz.UnknownTimeZoneError` / `KeyError`). -/
structure TZDatabase where
  localzone : Option TZHandle
  country_timezones : String → Option (List String)
  timezone : String → Option TZHandle

/-- Embeds `Py3status._get_timezone` (lines 152-178).  For a known country
code pytz returns a non-empty zone list and the source takes `zones[0]`;
`head?` models that access. -/
def get_timezone (db : TZDatabase) (tz : String) : ResolvedTZ :=
  if tz = "Local" then
    match db.localzone with
    | some z => ResolvedTZ.zone z
    | none => ResolvedTZ.unresolved
  else
    let tz2 : Option String :=
      if tz.length = 2 then
        match db.country_timezones tz with
        | some zones => zones.head?
        | none => none
      else some tz
    match tz2 with
    | none => ResolvedTZ.unresolved
    | some t =>
      match db.timezone t with
      | some z => ResolvedTZ.zone z
      | none => ResolvedTZ.unresolved

/-- The configuration attributes of `Py3status` that are never mutated.
`format` / `format_time` are "string or list of strings" in the source. -/
structure Cfg where
  blocks : List Char
  block_hours : Nat
  button_change_format : Nat
  button_change_time_format : Nat
  button_reset : Nat
  cycle : Nat
  format : String ⊕ List String
  format_time : String ⊕ List String

/-- The attributes set up by `post_config_hook` and mutated by `on_click`
and `clock` (`self.format` after list-wrapping, `self.cycle` after the
single-item adjustment, `self._items`, `self.multiple_tz`,
`self.format_time` after list-wrapping, `self.time_deltas`,
`self.active_time_format`, `self._cycle_time`, `self.active`). -/
structure ClockState where
  format : List String
  cycle : Nat
  items : List (String × ResolvedTZ)
  multiple_tz : Bool
  format_time : List String
  time_deltas : List Nat
  active_time_format : Nat
  cycle_time : Nat
  active : Nat
deriving DecidableEq

/-- Python dict insertion: keys in first-occurrence order, no duplicates
(re-assignment of `self._items[match]` overwrites with an equal value). -/
def dedupFirst (l : List String) : List String :=
  l.foldl (fun acc t => if t ∈ acc then acc else acc ++ [t]) []

/-- Embeds `Py3status.post_config_hook` (lines 107-150); `now` is the value
of `time()` at line 149. -/
def post_config_hook (db : TZDatabase) (cfg : Cfg) (now : Nat) : ClockState :=
  let fmt := match cfg.format with
    | Sum.inl s => [s]
    | Sum.inr l => l
  let cyc := if fmt.length = 1 then 0 else cfg.cycle
  let keys := dedupFirst (findTokens (String.join fmt).data)
  let items := keys.map (fun t => (t, get_timezone db t))
  let ftl := match cfg.format_time with
    | Sum.inl s => [s]
    | Sum.inr l => l
  { format := fmt
    cycle := cyc
    items := items
    multiple_tz := decide (1 < items.length)
    format_time := ftl
    time_deltas := ftl.map time_delta
    active_time_format := 0
    cycle_time := now + cyc
    active := 0 }

/-- Embeds `Py3status._change_active` (lines 180-181).  Nat `%` by zero is
the identity; the source would raise `ZeroDivisionError` on an empty
`self.format`, a state no claim's hypotheses reach. -/
def change_active (st : ClockState) (diff : Nat) : ClockState :=
  { st with active := (st.active + diff) % st.format.length }

/-- Embeds `Py3status.on_click` (lines 183-197); `now` is `time()` at
line 191, `button` is `event['button']`. -/
def on_click (cfg : Cfg) (now : Nat) (button : Nat) (st : ClockState) : ClockState :=
  if button = cfg.button_reset then
    { st with active := 0, cycle_time := now + st.cycle }
  else if button = cfg.button_change_time_format then
    let a := st.active_time_format + 1
    { st with active_time_format := if st.format_time.length ≤ a then 0 else a }
  else if button = cfg.button_change_format then
    change_active st 1
  else st

/-- The zone-local wall-clock fields of `datetime.now(zone)` that the module
reads (`t.hour`, `t.minute`). -/
structure LocalTime where
  hour : Nat
  minute : Nat
deriving DecidableEq

/-- The external collaborators used while rendering: `datetime.now(zone)`
(projected to the fields read), `t.strftime(fmt)`, `py3.safe_format` applied
to the time format's placeholder dict, and `py3.safe_format` applied to the
slot template with the per-token times dict. -/
structure Collab where
  localTime : TZHandle → LocalTime
  strftime : TZHandle → String → String
  fmtTime : String → Option Char → String → Option String → String → String
  fmtText : String → List (String × String) → String

/-- Embeds the icon-index computation (lines 216-221): decimal hour,
float `%` (which for nonnegative operands is `x - y*floor(x/y)`), then
`int(math.floor(h / block_hours * len(blocks)))`, over exact rationals. -/
def iconIdx (t : LocalTime) (block_hours nblocks : Nat) : Nat :=
  let h : ℚ := (t.hour : ℚ) + (t.minute : ℚ) / 60
  let hm : ℚ := h - (block_hours : ℚ) * ⌊h / (block_hours : ℚ)⌋
  (⌊hm / (block_hours : ℚ) * (nblocks : ℚ)⌋).toNat

/-- Written from the spec's words (§4.4 ClockRenderer / Scenario C), for the
refinement claim: "index = floor(((hour + minute/60) mod block_hours) /
block_hours * glyph_count)", where `mod` on nonnegative rationals with a
positive modulus is `a - b*floor(a/b)`. -/
def specIconIndex (hour minute block_hours glyphs : Nat) : ℤ :=
  let h : ℚ := (hour : ℚ) + (minute : ℚ) / 60
  ⌊(h - (block_hours : ℚ) * ⌊h / (block_hours : ℚ)⌋) / (block_hours : ℚ) * (glyphs : ℚ)⌋

/-- The `icon` local of `clock` (lines 214-222): `None` unless the active
time format contains the `{icon}` placeholder.  `self.blocks[idx]` is
totalized with a default; the claims keep `idx` in range. -/
def renderIcon (cfg : Cfg) (t : LocalTime) (format_time : String) : Option Char :=
  if hasSubstr "{icon}".data format_time.data then
    some (cfg.blocks.getD (iconIdx t cfg.block_hours cfg.blocks.length) ' ')
  else none

/-- Embeds lines 212-238 of `clock` for one resolved zone: compute `icon`,
`timezone`, `tzname` (`timezone.split('/')[-1].replace('_',' ')`), `name_`,
substitute placeholders, then strftime against the zone-local time. -/
def renderZone (cfg : Cfg) (collab : Collab) (st : ClockState) (z : TZHandle) : String :=
  let format_time := st.format_time.getD st.active_time_format ""
  let t := collab.localTime z
  let icon := renderIcon cfg t format_time
  let timezone := z.zone
  let tzname := String.map (fun c => if c = '_' then ' ' else c)
    ((timezone.splitOn "/").getLastD "")
  let name_ := if st.multiple_tz then some tzname else none
  collab.strftime z (collab.fmtTime format_time icon tzname name_ timezone)

/-- The `times` dict built by the loop at lines 207-239: an unresolved item
renders as the literal `?`, a resolved one via `renderZone`. -/
def clock_times (cfg : Cfg) (collab : Collab) (st : ClockState) : List (String × String) :=
  st.items.map (fun p =>
    (p.1, match p.2 with
          | ResolvedTZ.unresolved => "?"
          | ResolvedTZ.zone z => renderZone cfg collab st z))

/-- The auto-cycling step at lines 201-204 of `clock`: if a cycle interval
is set (truthy) and the current time has reached `self._cycle_time`, advance
the active slot and re-arm the deadline to `now + cycle`. -/
def cycle_step (now : Nat) (st : ClockState) : ClockState :=
  if st.cycle ≠ 0 ∧ st.cycle_time ≤ now then
    { change_active st 1 with cycle_time := now + st.cycle }
  else st

/-- The dict returned by `clock`. -/
structure PollResult where
  full_text : String
  cached_until : Nat

/-- Embeds `Py3status.clock` (lines 199-257); the successive `time()` reads
within one poll are modelled as the single instant `now`.  Indexing
`self.time_deltas[...]` / `self.format[...]` is totalized with `getD`; the
claims' hypotheses keep the indices in range. -/
def clock (cfg : Cfg) (collab : Collab) (now : Nat) (st : ClockState) :
    ClockState × PollResult :=
  let st1 := cycle_step now st
  let times := clock_times cfg collab st1
  let d := st1.time_deltas.getD st1.active_time_format 0
  let timeout := if d ≠ 0 then now + d - now % d else 0
  let timeout2 := if st1.cycle ≠ 0 then min timeout st1.cycle_time else timeout
  (st1, { full_text := collab.fmtText (st1.format.getD st1.active "") times
          cached_until := timeout2 })

/-- Repeated polling at every integer second `0, 1, ..., t`, keeping only the
state (the host calls `clock` once per refresh; no button events). -/
def pollSeq (cfg : Cfg) (collab : Collab) (st : ClockState) : Nat → ClockState
  | 0 => (clock cfg collab 0 st).1
  | t + 1 => (clock cfg collab (t + 1) (pollSeq cfg collab st t)).1

/-- The default `blocks` configuration value. -/
def CLOCK_BLOCKS : String := "🕛🕧🕐🕜🕑🕝🕒🕞🕓🕟🕔🕠🕕🕡🕖🕢🕗🕣🕘🕤🕙🕥🕚🕦"

/-- The default configuration attributes of class `Py3status` (lines 93-105). -/
def defaultCfg : Cfg :=
  { blocks := CLOCK_BLOCKS.data
    block_hours := 12
    button_change_format := 1
    button_change_time_format := 2
    button_reset := 3
    cycle := 0
    format := Sum.inl "{Local}"
    format_time := Sum.inr ["[{name_} ]%c", "[{name_} ]%x %X", "[{name_} ]%a %H:%M",
                            "[{name_} ]{icon}"] }

/-- A database on which every lookup fails. -/
def exDb : TZDatabase :=
  { localzone := none
    country_timezones := fun _ => none
    timezone := fun _ => none }

/-- Concrete collaborator functions for evaluating the model at sample
points. -/
def exCollab : Collab :=
  { localTime := fun _ => ⟨0, 0⟩
    strftime := fun _ s => s
    fmtTime := fun f _ _ _ _ => f
    fmtText := fun f _ => f }

/-- A single-slot state (cycling disabled), with one unresolved token and a
minute-granularity active time format. -/
def exSt : ClockState :=
  { format := ["{Local}"]
    cycle := 0
    items := [("Local", ResolvedTZ.unresolved)]
    multiple_tz := false
    format_time := ["%a %H:%M"]
    time_deltas := [60]
    active_time_format := 0
    cycle_time := 0
    active := 0 }

/-- A three-slot state with a 2-second cycle, as just armed at time 0. -/
def exSt3 : ClockState :=
  { format := ["{a}", "{b}", "{c}"]
    cycle := 2
    items := []
    multiple_tz := false
    format_time := ["%H:%M"]
    time_deltas := [60]
    active_time_format := 0
    cycle_time := 2
    active := 0 }

/-- A two-slot state currently on slot 1, cycle armed for time 100. -/
def exStB : ClockState :=
  { format := ["{a}", "{b}"]
    cycle := 10
    items := []
    multiple_tz := false
    format_time := ["%H:%M", "%S"]
    time_deltas := [60, 1]
    active_time_format := 0
    cycle_time := 100
    active := 1 }

/-- The default configuration with the reset button "disabled" (set to 0)
and a cycle interval. -/
def cfgB0 : Cfg := { defaultCfg with button_reset := 0, cycle := 10 }

/-- The default configuration with explicitly empty `format` and
`format_time` lists. -/
def cfgEmptyLists : Cfg :=
  { defaultCfg with format := Sum.inr [], format_time := Sum.inr [] }

/-- The default configuration (single `format` string) with a positive
user-configured cycle interval. -/
def cfgPos : Cfg := { defaultCfg with cycle := 10 }

/-! ## Helper lemmas about the cycling step and polling -/

theorem clock_fst (cfg : Cfg) (collab : Collab) (now : Nat) (st : ClockState) :
    (clock cfg collab now st).1 = cycle_step now st := rfl

theorem pollSeq_zero (cfg : Cfg) (collab : Collab) (st : ClockState) :
    pollSeq cfg collab st 0 = cycle_step 0 st := rfl

theorem pollSeq_succ (cfg : Cfg) (collab : Collab) (st : ClockState) (t : Nat) :
    pollSeq cfg collab st (t + 1) = cycle_step (t + 1) (pollSeq cfg collab st t) := rfl

theorem cycle_step_cycle (now : Nat) (st : ClockState) :
    (cycle_step now st).cycle = st.cycle := by
  unfold cycle_step change_active; split <;> rfl

theorem cycle_step_format (now : Nat) (st : ClockState) :
    (cycle_step now st).format = st.format := by
  unfold cycle_step change_active; split <;> rfl

theorem cycle_step_items (now : Nat) (st : ClockState) :
    (cycle_step now st).items = st.items := by
  unfold cycle_step change_active; split <;> rfl

theorem cycle_step_time_deltas (now : Nat) (st : ClockState) :
    (cycle_step now st).time_deltas = st.time_deltas := by
  unfold cycle_step change_active; split <;> rfl

theorem cycle_step_active_time_format (now : Nat) (st : ClockState) :
    (cycle_step now st).active_time_format = st.active_time_format := by
  unfold cycle_step change_active; split <;> rfl

theorem cycle_step_active_hit {now : Nat} {st : ClockState}
    (h1 : st.cycle ≠ 0) (h2 : st.cycle_time ≤ now) :
    (cycle_step now st).active = (st.active + 1) % st.format.length := by
  unfold cycle_step change_active
  rw [if_pos ⟨h1, h2⟩]

theorem cycle_step_time_hit {now : Nat} {st : ClockState}
    (h1 : st.cycle ≠ 0) (h2 : st.cycle_time ≤ now) :
    (cycle_step now st).cycle_time = now + st.cycle := by
  unfold cycle_step change_active
  rw [if_pos ⟨h1, h2⟩]

theorem cycle_step_miss {now : Nat} {st : ClockState}
    (h : st.cycle = 0 ∨ now < st.cycle_time) : cycle_step now st = st := by
  unfold cycle_step
  rw [if_neg]
  rintro ⟨h1, h2⟩
  rcases h with h | h
  · exact h1 h
  · omega

/-- The slot-advance invariant maintained by polling at every integer second:
at time `t` the slot has advanced `t / c` times and the deadline is armed at
the next multiple of `c`. -/
theorem pollSeq_inv (cfg : Cfg) (collab : Collab) (st : ClockState) (c N a0 : Nat)
    (h0 : 0 < c) (hc : st.cycle = c) (hN : st.format.length = N)
    (ha : st.active = a0) (haN : a0 < N) (hct : st.cycle_time = c) :
    ∀ t : Nat,
      (pollSeq cfg collab st t).active = (a0 + t / c) % N
      ∧ (pollSeq cfg collab st t).cycle_time = c * (t / c) + c
      ∧ (pollSeq cfg collab st t).cycle = c
      ∧ (pollSeq cfg collab st t).format.length = N := by
  intro t
  induction t with
  | zero =>
    have hmiss : cycle_step 0 st = st := cycle_step_miss (Or.inr (by omega))
    rw [pollSeq_zero, hmiss]
    refine ⟨?_, ?_, hc, hN⟩
    · rw [ha, Nat.zero_div, Nat.add_zero, Nat.mod_eq_of_lt haN]
    · rw [hct, Nat.zero_div, Nat.mul_zero, Nat.zero_add]
  | succ t ih =>
    obtain ⟨ih1, ih2, ih3, ih4⟩ := ih
    rw [pollSeq_succ]
    have hdm : c * (t / c) + t % c = t := Nat.div_add_mod t c
    have hr : t % c < c := Nat.mod_lt t h0
    by_cases hcond : c * (t / c) + c ≤ t + 1
    · have hrc : t % c + 1 = c := by omega
      have ht1 : t + 1 = c * (t / c + 1) := by rw [Nat.mul_succ]; omega
      have hdiv : (t + 1) / c = t / c + 1 := by
        rw [ht1, Nat.mul_div_cancel_left _ h0]
      have hcy : (pollSeq cfg collab st t).cycle ≠ 0 := by omega
      have hctle : (pollSeq cfg collab st t).cycle_time ≤ t + 1 := by omega
      refine ⟨?_, ?_, ?_, ?_⟩
      · rw [cycle_step_active_hit hcy hctle, ih1, ih4, Nat.mod_add_mod, hdiv,
          Nat.add_assoc]
      · rw [cycle_step_time_hit hcy hctle, ih3, hdiv, Nat.mul_succ]
        omega
      · rw [cycle_step_cycle]; exact ih3
      · rw [cycle_step_format]; exact ih4
    · have hlt : t + 1 < (pollSeq cfg collab st t).cycle_time := by omega
      have hmiss := cycle_step_miss (Or.inr hlt)
      have hdiv : (t + 1) / c = t / c := by
        have h1 : t + 1 = (t % c + 1) + c * (t / c) := by omega
        have h2 : t % c + 1 < c := by omega
        rw [h1, Nat.add_mul_div_left _ _ h0, Nat.div_eq_of_lt h2, Nat.zero_add]
      rw [hmiss, hdiv]
      exact ⟨ih1, ih2, ih3, ih4⟩

/-! ## Claim theorems -/

/-- Claim C1: for every poll, the returned `cached_until` equals the minimum
of the granularity deadline and the (post-advance) cycle deadline when
slot-cycling is enabled, and the granularity deadline alone when disabled;
the granularity deadline is 0 when the active time-format's granularity is 0,
and otherwise `now + g - now % g` — in particular `now + 60 - now % 60` for
`g = 60`. -/
theorem clock_cached_until_formula (cfg : Cfg) (collab : Collab) (now : Nat)
    (st : ClockState) :
    (clock cfg collab now st).2.cached_until =
      (let g := st.time_deltas.getD st.active_time_format 0
       let gd := if g = 0 then 0 else now + g - now % g
       if st.cycle ≠ 0 then min gd (clock cfg collab now st).1.cycle_time else gd) := by
  simp only [clock, clock_fst, cycle_step_time_deltas, cycle_step_active_time_format,
    cycle_step_cycle]
  by_cases hg : st.time_deltas.getD st.active_time_format 0 = 0
  · simp [hg]
  · simp [hg]

/-- Claim C2: the granularity computed at initialization strips `{token}`
spans and `%%` sequences, then classifies with first-match-wins precedence
`%f → 0`, `%S → 1`, `%c → 1`, `%X → 1`, otherwise 60; in particular
`granularity("%S") = 1`, `granularity("%f") = 0`, `granularity("%H:%M") = 60`,
and any format whose stripped form contains `%f` (such as one with both `%f`
and `%H`) gives 0. -/
theorem time_delta_matches_spec :
    (∀ format : String, time_delta format = specGranularity format)
    ∧ (∀ format : String,
        hasSubstr ['%', 'f'] (stripPercentPercent (stripTokens format.data)) = true →
        time_delta format = 0)
    ∧ time_delta "%S" = 1 ∧ time_delta "%f" = 0 ∧ time_delta "%H:%M" = 60
    ∧ time_delta "%f %H" = 0 := by
  refine ⟨fun format => rfl, fun format h => ?_, by decide, by decide, by decide, by decide⟩
  simp only [time_delta, h, if_true]

/-- Claim C2 witness: the stripped form of `"{Local} %f%H"` contains `%f`,
so its granularity is 0; and the source's classification agrees with the
spec's on `"%c"`. -/
theorem time_delta_matches_spec_witness :
    time_delta "{Local} %f%H" = 0 ∧ time_delta "%c" = specGranularity "%c" := by
  have h := time_delta_matches_spec
  exact ⟨h.2.1 "{Local} %f%H" (by decide), h.1 "%c"⟩

/-- Claim C3: with a positive cycle interval `c`, `N` slots and no button
events, polling at every integer second advances the active slot exactly when
the current time has reached the stored cycle deadline (re-arming it to
`now + cycle`), so that polling through time `elapsed` from a deadline armed
at time 0 leaves the slot advanced by `elapsed / c` modulo `N`. -/
theorem cycling_slot_advance (cfg : Cfg) (collab : Collab) (st : ClockState)
    (c N a0 elapsed : Nat) (h0 : 0 < c) (hc : st.cycle = c)
    (hN : st.format.length = N) (ha : st.active = a0) (haN : a0 < N)
    (hct : st.cycle_time = c) :
    ((pollSeq cfg collab st elapsed).active = (a0 + elapsed / c) % N)
    ∧ (∀ (now : Nat) (s : ClockState), s.cycle ≠ 0 → s.cycle_time ≤ now →
        (clock cfg collab now s).1.active = (s.active + 1) % s.format.length
        ∧ (clock cfg collab now s).1.cycle_time = now + s.cycle)
    ∧ (∀ (now : Nat) (s : ClockState), s.cycle = 0 ∨ now < s.cycle_time →
        (clock cfg collab now s).1 = s) := by
  refine ⟨(pollSeq_inv cfg collab st c N a0 h0 hc hN ha haN hct elapsed).1,
    fun now s h1 h2 => ?_, fun now s h => ?_⟩
  · rw [clock_fst]
    exact ⟨cycle_step_active_hit h1 h2, cycle_step_time_hit h1 h2⟩
  · rw [clock_fst]
    exact cycle_step_miss h

/-- Claim C3 witness: three slots, cycle interval 2, deadline armed at time
0; polling at seconds 0..5 advances the slot `5 / 2 = 2` times. -/
theorem cycling_slot_advance_witness :
    (pollSeq defaultCfg exCollab exSt3 5).active = 2 := by
  have h := cycling_slot_advance defaultCfg exCollab exSt3 2 3 0 5 (by decide)
    rfl rfl rfl (by decide) rfl
  simpa using h.1

/-- Claim C4: a click whose button identifier equals the configured reset
button sets the active slot to 0 and re-arms the cycle deadline to
`now + cycle`, regardless of the prior state. -/
theorem reset_button_resets (cfg : Cfg) (now button : Nat) (st : ClockState)
    (hb : button = cfg.button_reset) :
    (on_click cfg now button st).active = 0
    ∧ (on_click cfg now button st).cycle_time = now + st.cycle := by
  subst hb
  simp [on_click]

/-- Claim C4 witness: with the default buttons, a button-3 click from slot 1
at time 50 with cycle 10 yields slot 0 and deadline 60. -/
theorem reset_button_resets_witness :
    (on_click defaultCfg 50 3 exStB).active = 0
    ∧ (on_click defaultCfg 50 3 exStB).cycle_time = 60 := by
  have h := reset_button_resets defaultCfg 50 3 exStB rfl
  exact ⟨h.1, by simpa using h.2⟩

/-- Claim C5 counterexample: buttons are compared by plain equality, so with
`button_reset` configured to 0 a click event whose button identifier is 0
does trigger the reset action — the active slot moves from 1 to 0 and the
cycle deadline is re-armed from 100 to 60 — refuting "a button action whose
configured identifier is 0 never triggers, for any event". -/
theorem zero_button_event_triggers_reset :
    cfgB0.button_reset = 0 ∧ exStB.active = 1 ∧ exStB.cycle_time = 100
    ∧ (on_click cfgB0 50 0 exStB).active = 0
    ∧ (on_click cfgB0 50 0 exStB).cycle_time = 60 := by
  refine ⟨rfl, rfl, rfl, ?_, ?_⟩ <;> rfl

/-- Claim C5 amended: a click event whose button identifier matches none of
the three configured identifiers leaves the state unchanged; and a button
action whose configured identifier is 0 never triggers for any event whose
button identifier is nonzero (an event with identifier 0 does trigger an
action configured as 0, since identifiers are compared by equality). -/
theorem unmatched_button_ignored (cfg : Cfg) (now button : Nat) (st : ClockState) :
    (button ≠ cfg.button_reset → button ≠ cfg.button_change_time_format →
      button ≠ cfg.button_change_format → on_click cfg now button st = st)
    ∧ (button ≠ 0 → cfg.button_reset = 0 → cfg.button_change_time_format = 0 →
      cfg.button_change_format = 0 → on_click cfg now button st = st)
    ∧ (button ≠ 0 → cfg.button_reset = 0 →
      (on_click cfg now button st).cycle_time = st.cycle_time)
    ∧ (button ≠ 0 → cfg.button_change_time_format = 0 →
      (on_click cfg now button st).active_time_format = st.active_time_format) := by
  refine ⟨fun h1 h2 h3 => ?_, fun hb h1 h2 h3 => ?_, fun hb h1 => ?_, fun hb h2 => ?_⟩
  · simp [on_click, h1, h2, h3]
  · simp [on_click, h1 ▸ hb, h2 ▸ hb, h3 ▸ hb]
  · simp only [on_click, change_active]
    rw [if_neg (h1 ▸ hb)]
    split
    · rfl
    · split <;> rfl
  · simp only [on_click, change_active]
    split
    · rfl
    · rw [if_neg (h2 ▸ hb)]
      split <;> rfl

/-- Claim C5 witness: with the default buttons, an unmatched button 9 leaves
the state unchanged; with `button_reset = 0`, a click with nonzero button 2
does not touch the cycle deadline. -/
theorem unmatched_button_ignored_witness :
    on_click defaultCfg 50 9 exStB = exStB
    ∧ (on_click cfgB0 50 2 exStB).cycle_time = 100 := by
  have h := unmatched_button_ignored defaultCfg 50 9 exStB
  have h2 := unmatched_button_ignored cfgB0 50 2 exStB
  exact ⟨h.1 (by decide) (by decide) (by decide),
    by simpa using h2.2.2.1 (by decide) rfl⟩

/-- Claim C6: a token whose timezone failed to resolve (unknown IANA name,
unknown 2-letter country code, or undeterminable local zone) is stored as
the unresolved marker, and every poll renders it as the literal `?`
regardless of the active time-format and of every collaborator's behaviour. -/
theorem unresolved_zone_renders_marker (db : TZDatabase) (cfg : Cfg)
    (collab : Collab) (now : Nat) (st : ClockState) :
    (db.localzone = none → get_timezone db "Local" = ResolvedTZ.unresolved)
    ∧ (∀ tz : String, tz.length = 2 → db.country_timezones tz = none →
        get_timezone db tz = ResolvedTZ.unresolved)
    ∧ (∀ tz : String, tz ≠ "Local" → tz.length ≠ 2 → db.timezone tz = none →
        get_timezone db tz = ResolvedTZ.unresolved)
    ∧ (∀ name : String, (name, ResolvedTZ.unresolved) ∈ st.items →
        (name, "?") ∈ clock_times cfg collab ((clock cfg collab now st).1)) := by
  refine ⟨fun h => ?_, fun tz h2 hc => ?_, fun tz h1 h2 h3 => ?_, fun name hm => ?_⟩
  · simp [get_timezone, h]
  · have hL : tz ≠ "Local" := by
      intro he
      rw [he] at h2
      exact absurd h2 (by decide)
    simp [get_timezone, hL, h2, hc]
  · simp [get_timezone, h1, h2, h3]
  · rw [clock_fst]
    unfold clock_times
    rw [cycle_step_items]
    exact List.mem_map.mpr ⟨(name, ResolvedTZ.unresolved), hm, rfl⟩

/-- Claim C6 witness: on a database where every lookup fails, `Local`, the
country code `us` and the zone name `Europe/Nowhere` all resolve to the
unresolved marker, and the poll renders the single unresolved token as `?`. -/
theorem unresolved_zone_renders_marker_witness :
    get_timezone exDb "Local" = ResolvedTZ.unresolved
    ∧ get_timezone exDb "us" = ResolvedTZ.unresolved
    ∧ get_timezone exDb "Europe/Nowhere" = ResolvedTZ.unresolved
    ∧ ("Local", "?") ∈ clock_times defaultCfg exCollab
        ((clock defaultCfg exCollab 0 exSt).1) := by
  have h := unresolved_zone_renders_marker exDb defaultCfg exCollab 0 exSt
  exact ⟨h.1 rfl, h.2.1 "us" (by decide) rfl,
    h.2.2.1 "Europe/Nowhere" (by decide) (by decide) rfl,
    h.2.2.2 "Local" (by decide)⟩

/-- Claim C7: the selected glyph index is
`floor(((hour + minute/60) mod block_hours) / block_hours * glyph_count)`
(any positive block-hours period); with 24 glyphs and `block_hours = 12`,
00:00 gives index 0, 06:00 gives 12 and 11:59 gives 23. -/
theorem icon_index_matches_spec :
    (∀ (t : LocalTime) (B K : Nat), 0 < B →
      ((iconIdx t B K : Nat) : ℤ) = specIconIndex t.hour t.minute B K)
    ∧ iconIdx ⟨0, 0⟩ 12 24 = 0 ∧ iconIdx ⟨6, 0⟩ 12 24 = 12
    ∧ iconIdx ⟨11, 59⟩ 12 24 = 23 := by
  refine ⟨fun t B K hB => ?_, ?_, ?_, ?_⟩
  · simp only [iconIdx, specIconIndex]
    set h : ℚ := (t.hour : ℚ) + (t.minute : ℚ) / 60 with hh
    have hB' : (0 : ℚ) < B := by exact_mod_cast hB
    have hh0 : (0 : ℚ) ≤ h := by positivity
    have h1 : (B : ℚ) * ⌊h / (B : ℚ)⌋ ≤ h := by
      have h2 := mul_le_mul_of_nonneg_left (Int.floor_le (h / (B : ℚ))) (le_of_lt hB')
      rwa [mul_div_cancel₀ _ (ne_of_gt hB')] at h2
    have h3 : (0 : ℚ) ≤ (h - (B : ℚ) * ⌊h / (B : ℚ)⌋) / (B : ℚ) * (K : ℚ) := by
      apply mul_nonneg _ (Nat.cast_nonneg K)
      apply div_nonneg _ (le_of_lt hB')
      linarith
    exact Int.toNat_of_nonneg (Int.floor_nonneg.mpr h3)
  · simp only [iconIdx]; norm_num
  · simp only [iconIdx]; norm_num; decide
  · simp only [iconIdx]; norm_num; decide

/-- Claim C7 witness: at 09:30 on a 12-hour period of 24 glyphs the code's
index agrees with the spec's formula and is 19. -/
theorem icon_index_matches_spec_witness :
    ((iconIdx ⟨9, 30⟩ 12 24 : Nat) : ℤ) = specIconIndex 9 30 12 24
    ∧ iconIdx ⟨9, 30⟩ 12 24 = 19 := by
  have h := icon_index_matches_spec
  refine ⟨h.1 ⟨9, 30⟩ 12 24 (by decide), ?_⟩
  simp only [iconIdx]; norm_num; decide

/-- Claim C8: a click on the advance-time-format button (when distinct from
the reset button, with the active index in range) sets the time-format index
to `(i + 1) mod M` and leaves the slot and the cycle deadline unchanged; a
click on the advance-slot button (when distinct from the other two) sets the
slot to `(slot + 1) mod N` and leaves the cycle deadline and time-format
index unchanged. -/
theorem advance_buttons_effects (cfg : Cfg) (now : Nat) (st : ClockState) :
    (∀ button, button = cfg.button_change_time_format → button ≠ cfg.button_reset →
      st.active_time_format < st.format_time.length →
      (on_click cfg now button st).active_time_format
          = (st.active_time_format + 1) % st.format_time.length
      ∧ (on_click cfg now button st).active = st.active
      ∧ (on_click cfg now button st).cycle_time = st.cycle_time)
    ∧ (∀ button, button = cfg.button_change_format → button ≠ cfg.button_reset →
      button ≠ cfg.button_change_time_format →
      (on_click cfg now button st).active = (st.active + 1) % st.format.length
      ∧ (on_click cfg now button st).cycle_time = st.cycle_time
      ∧ (on_click cfg now button st).active_time_format = st.active_time_format) := by
  constructor
  · intro button hb hr hlt
    simp only [on_click, if_neg hr, if_pos hb]
    refine ⟨?_, by trivial, by trivial⟩
    rcases Nat.lt_or_ge (st.active_time_format + 1) st.format_time.length with hlt2 | hge
    · rw [if_neg (not_le.mpr hlt2), Nat.mod_eq_of_lt hlt2]
    · have heq : st.active_time_format + 1 = st.format_time.length :=
        le_antisymm (Nat.succ_le_of_lt hlt) hge
      rw [if_pos hge, heq, Nat.mod_self]
  · intro button hb hr ht
    simp only [on_click, change_active, if_neg hr, if_neg ht, if_pos hb]
    refine ⟨by trivial, by trivial, by trivial⟩

/-- Claim C8 witness: with the default buttons, a button-2 click advances the
time-format index from 0 to 1 keeping slot and deadline, and a button-1 click
advances the slot from 1 to 0 (mod 2) keeping the deadline. -/
theorem advance_buttons_effects_witness :
    (on_click defaultCfg 7 2 exStB).active_time_format = 1
    ∧ (on_click defaultCfg 7 2 exStB).cycle_time = 100
    ∧ (on_click defaultCfg 7 1 exStB).active = 0
    ∧ (on_click defaultCfg 7 1 exStB).cycle_time = 100 := by
  have h := advance_buttons_effects defaultCfg 7 exStB
  have h1 := h.1 2 rfl (by decide) (by decide)
  have h2 := h.2 1 rfl (by decide) (by decide)
  exact ⟨by simpa using h1.1, by simpa using h1.2.2,
    by simpa using h2.1, by simpa using h2.2.1⟩

/-- Claim C9 counterexample: initialization only wraps a non-list value into
a one-element list; a user-supplied empty list is kept empty, not replaced by
a default — refuting "if the user supplies an empty list for either, a
documented single-element default is substituted". -/
theorem empty_format_list_kept :
    (post_config_hook exDb cfgEmptyLists 0).format = []
    ∧ (post_config_hook exDb cfgEmptyLists 0).format_time = [] :=
  ⟨rfl, rfl⟩

/-- Claim C9 amended: a plain-string (non-list) `format` or `format_time` is
wrapped into a single-element list, so such configurations (including the
documented defaults) yield non-empty lists after initialization; a
user-supplied list — empty or not — is kept exactly as supplied. -/
theorem nonlist_config_wrapped (db : TZDatabase) (cfg : Cfg) (now : Nat) :
    (∀ s, cfg.format = Sum.inl s → (post_config_hook db cfg now).format = [s])
    ∧ (∀ s, cfg.format_time = Sum.inl s →
        (post_config_hook db cfg now).format_time = [s])
    ∧ (∀ l, cfg.format = Sum.inr l → (post_config_hook db cfg now).format = l)
    ∧ (∀ l, cfg.format_time = Sum.inr l →
        (post_config_hook db cfg now).format_time = l) := by
  refine ⟨fun s h => ?_, fun s h => ?_, fun l h => ?_, fun l h => ?_⟩ <;>
    simp [post_config_hook, h]

/-- Claim C9 witness: the default `format` is the plain string containing the
`Local` token, wrapped into a one-element list; the explicitly empty
`format_time` list stays empty. -/
theorem nonlist_config_wrapped_witness :
    (post_config_hook exDb defaultCfg 0).format = ["{Local}"]
    ∧ (post_config_hook exDb cfgEmptyLists 0).format_time = [] := by
  have h := nonlist_config_wrapped exDb defaultCfg 0
  have h2 := nonlist_config_wrapped exDb cfgEmptyLists 0
  exact ⟨h.1 "{Local}" rfl, h2.2.2.2 [] rfl⟩

/-- Claim C10: a configuration whose slot list has exactly one element
(including a plain-string `format`) gets `cycle = 0` at initialization even
if a positive cycle was configured; with `cycle = 0`, a poll never
auto-advances and its `cached_until` is the granularity deadline alone. -/
theorem single_slot_zero_cycle (db : TZDatabase) (cfg : Cfg) (now : Nat)
    (collab : Collab) (now2 : Nat) (st : ClockState) :
    (∀ s, cfg.format = Sum.inl s → (post_config_hook db cfg now).cycle = 0)
    ∧ (∀ l, cfg.format = Sum.inr l → l.length = 1 →
        (post_config_hook db cfg now).cycle = 0)
    ∧ (st.cycle = 0 →
        (clock cfg collab now2 st).1 = st
        ∧ (clock cfg collab now2 st).2.cached_until =
            (let g := st.time_deltas.getD st.active_time_format 0
             if g = 0 then 0 else now2 + g - now2 % g)) := by
  refine ⟨fun s h => ?_, fun l h hl => ?_, fun h0 => ?_⟩
  · simp [post_config_hook, h]
  · simp [post_config_hook, h, hl]
  · have hmiss : cycle_step now2 st = st := cycle_step_miss (Or.inl h0)
    constructor
    · rw [clock_fst]; exact hmiss
    · simp only [clock, hmiss, h0]
      by_cases hg : st.time_deltas.getD st.active_time_format 0 = 0
      · simp [hg]
      · simp [hg]

/-- Claim C10 witness: `cfgPos` has the single default slot string but
`cycle = 10`; initialization forces `cycle = 0`.  On the single-slot state
with granularity 60, a poll at time 130 is cached until 180 and leaves the
state unchanged. -/
theorem single_slot_zero_cycle_witness :
    cfgPos.cycle = 10 ∧ (post_config_hook exDb cfgPos 0).cycle = 0
    ∧ (clock defaultCfg exCollab 130 exSt).1 = exSt
    ∧ (clock defaultCfg exCollab 130 exSt).2.cached_until = 180 := by
  have h := single_slot_zero_cycle exDb cfgPos 0 exCollab 130 exSt
  have h2 := single_slot_zero_cycle exDb defaultCfg 0 exCollab 130 exSt
  refine ⟨rfl, h.1 "{Local}" rfl, (h2.2.2 rfl).1, ?_⟩
  have h3 := (h2.2.2 rfl).2
  simpa using h3

end Clock
